import Mathlib

/-!
Verification of the Cloud-Ass2 task API (`src/Cloud-Ass2/app.js`).

The program is a small Express application: a PostgreSQL table `tasks`
holding `(id SERIAL, data JSONB)` rows, and a Redis key `"taskCount"`
caching the row count as a decimal string.  We embed the six HTTP handlers
as pure functions over an explicit system state.  The durable store and the
cache are modelled at the level of the adapter contract the handlers use:
`pool.query` calls become the evident operations on the row list (insert
with the next serial id, select/update/delete by id, `COUNT(*)` as the list
length), and the Redis client becomes an `Option String` cell with
`get`/`set`/`incr`/`decr`, where `incr`/`decr` parse the stored string as an
integer exactly as Redis does (absent key counts as 0; a non-integer string
is an error).  JavaScript semantics that the handlers rely on — truthiness
of the `!title` test, `??` defaulting, object spread `{...a, ...b}`,
`parseInt(s, 10)`, `String(n)` — are embedded explicitly below.

One defect of the source is load-bearing and is modelled as such: the
INSERT (app.js line 72) and the UPDATE (app.js line 138) use the
placeholder `$datavalues`, which `pg` does not substitute (it supports only
positional `$1, $2, …` and sends the text verbatim) and PostgreSQL rejects
(a lone `$datavalues` fails to lex as a dollar-quoted string).  Both
queries therefore throw on every execution: a valid POST and a PUT on an
existing id always land in their catch blocks and answer
500 {error: "Server error"} with nothing persisted.  The remaining queries
(SELECT, SELECT by id, COUNT, DELETE with `$1`) are well-formed and are
modelled by their effect on the row list.
-/

namespace CloudAss2

/-- JSON values, as delivered by `express.json()` request parsing and stored
in the JSONB `data` column.  Numbers are restricted to integers: every
number the handlers themselves produce (ids, counts) is an integer, and the
handlers never compute with numbers held in attribute bags. -/
inductive JsonVal : Type where
  | null : JsonVal
  | bool : Bool → JsonVal
  | num : Int → JsonVal
  | str : String → JsonVal
  | arr : List JsonVal → JsonVal
  | obj : List (String × JsonVal) → JsonVal

/-- An attribute bag: the fields of a JSON object (a parsed request body, or
the stored `data` document), in order, keys unique as JavaScript objects
guarantee. -/
abbrev Bag := List (String × JsonVal)

/-- Property access `bag[k]`: the value at key `k`, `none` for a missing key
(JavaScript `undefined`). -/
def bagFind (b : Bag) (k : String) : Option JsonVal :=
  (b.find? (fun p => p.1 == k)).map (fun p => p.2)

/-- JavaScript object spread `{...a, ...b}`: keys of `a` in place with `b`'s
value where `b` has the key, then the keys only `b` has, in `b`'s order. -/
def spread (a b : Bag) : Bag :=
  a.map (fun p => (p.1, (bagFind b p.1).getD p.2)) ++
    b.filter (fun p => (bagFind a p.1).isNone)

/-- JavaScript truthiness, negated by the `!title` test: `undefined` is
handled at the call site, and of the JSON values `null`, `false`, `0` and
`""` are falsy. -/
def jsFalsy : JsonVal → Bool
  | .null => true
  | .bool b => !b
  | .num n => n == 0
  | .str s => s == ""
  | .arr _ => false
  | .obj _ => false

/-- `typeof v === "string"`. -/
def isStringVal : JsonVal → Bool
  | .str _ => true
  | _ => false

/-- JavaScript `String.prototype.trim`: strip leading and trailing
whitespace. -/
def jsTrim (s : String) : String :=
  ⟨((s.data.dropWhile (fun c => c.isWhitespace)).reverse.dropWhile
      (fun c => c.isWhitespace)).reverse⟩

/-- `title.trim()` as reached by the handler: only evaluated on strings (the
`typeof` test short-circuits first). -/
def jsTrimOf : JsonVal → String
  | .str s => jsTrim s
  | _ => ""

/-- The POST validation test from app.js line 58:
`!title || typeof title !== "string" || title.trim() === ""`,
with `none` standing for an absent `title` key (`undefined`). -/
def titleCheckFails : Option JsonVal → Bool
  | none => true
  | some t => jsFalsy t || !(isStringVal t) || (jsTrimOf t == "")

/-- Nullish coalescing `v ?? d`: the default replaces `undefined` (absent)
and `null`. -/
def nullishD (v : Option JsonVal) (d : JsonVal) : JsonVal :=
  match v with
  | none => d
  | some .null => d
  | some w => w

/-- The attribute bag POST builds (app.js lines 66-70):
`{title, description: description ?? null, status: status ?? "pending"}`. -/
def payloadOf (body : Bag) : Bag :=
  [("title", (bagFind body "title").getD .null),
   ("description", nullishD (bagFind body "description") .null),
   ("status", nullishD (bagFind body "status") (.str "pending"))]

/-! ### Decimal strings

The cache stores the count as a string: `String(rows[0].count)` writes it,
Redis `INCR`/`DECR` parse and rewrite it, and `parseInt(taskCount, 10)`
reads it back.  We embed decimal printing and both parsers. -/

/-- The decimal digit character for `d < 10`. -/
def digitChar : Nat → Char
  | 0 => '0'
  | 1 => '1'
  | 2 => '2'
  | 3 => '3'
  | 4 => '4'
  | 5 => '5'
  | 6 => '6'
  | 7 => '7'
  | 8 => '8'
  | 9 => '9'
  | _ => '?'

/-- The value of a decimal digit character; `10` marks a non-digit. -/
def digitVal : Char → Nat
  | '0' => 0
  | '1' => 1
  | '2' => 2
  | '3' => 3
  | '4' => 4
  | '5' => 5
  | '6' => 6
  | '7' => 7
  | '8' => 8
  | '9' => 9
  | _ => 10

/-- Whether a character is a decimal digit. -/
def isDigitCh (c : Char) : Bool := digitVal c < 10

/-- Big-endian decimal digits of `n` (empty for `0`), with enough fuel when
`n ≤ fuel`. -/
def natDigits : Nat → Nat → List Char
  | 0, _ => []
  | _ + 1, 0 => []
  | fuel + 1, n + 1 =>
      natDigits fuel ((n + 1) / 10) ++ [digitChar ((n + 1) % 10)]

/-- Decimal representation of a natural number, as `String(n)` prints it. -/
def natStr (n : Nat) : String :=
  if n = 0 then "0" else ⟨natDigits n n⟩

/-- Decimal representation of an integer. -/
def intStr (i : Int) : String :=
  if i < 0 then ⟨'-' :: (natStr i.natAbs).data⟩ else natStr i.toNat

/-- The numeric value of a digit string, most significant digit first. -/
def valDigits (l : List Char) : Nat :=
  l.foldl (fun a c => a * 10 + digitVal c) 0

/-- The value of a nonempty all-digit character list, else `none`. -/
def digitsVal? (l : List Char) : Option Nat :=
  if l = [] then none
  else if l.all isDigitCh then some (valDigits l) else none

/-- Redis's strict integer read, on the value's characters: an optional
minus sign then digits, nothing else. -/
def parseRedisIntAux : List Char → Option Int
  | [] => none
  | c :: rest =>
      if c = '-' then (digitsVal? rest).map (fun v => -(v : Int))
      else (digitsVal? (c :: rest)).map (fun v => (v : Int))

/-- Redis's strict integer read of a stored value (`string2ll`): `none` is
the "value is not an integer" error. -/
def parseRedisInt (s : String) : Option Int :=
  parseRedisIntAux s.data

/-- The optional sign of a numeric literal: `(negative, remaining)`. -/
def stripSign (l : List Char) : Bool × List Char :=
  match l with
  | [] => (false, [])
  | c :: rest =>
      if c = '-' then (true, rest)
      else if c = '+' then (false, rest)
      else (false, c :: rest)

/-- JavaScript `parseInt(s, 10)`: skip leading whitespace, optional sign,
then the longest digit prefix; `none` is `NaN`. -/
def parseInt10 (s : String) : Option Int :=
  let l := s.data.dropWhile (fun c => c.isWhitespace)
  let sg := stripSign l
  let ds := sg.2.takeWhile isDigitCh
  if ds.isEmpty then none
  else some (if sg.1 then -((valDigits ds : Nat) : Int) else ((valDigits ds : Nat) : Int))

/-- Redis `INCR` on the value at a key: an absent key counts as `0`; a
present value must parse as an integer (else the command errors, `none`). -/
def redisIncrStr : Option String → Option String
  | none => some (intStr 1)
  | some s => (parseRedisInt s).map (fun n => intStr (n + 1))

/-- Redis `DECR`, symmetric to `INCR`. -/
def redisDecrStr : Option String → Option String
  | none => some (intStr (-1))
  | some s => (parseRedisInt s).map (fun n => intStr (n - 1))

/-- How `res.json` serializes the `parseInt` result: a number, or `null` for
`NaN`. -/
def jsNum : Option Int → JsonVal
  | some n => .num n
  | none => .null

/-! ### System state and handlers -/

/-- The state the handlers act on: the PostgreSQL `tasks` table as
`(id, data)` rows with the sequence's next serial id, and the Redis
`"taskCount"` key (`none` when absent/evicted). -/
structure Sys : Type where
  tasks : List (Nat × Bag)
  nextId : Nat
  taskCount : Option String

/-- A fresh deployment: empty table, serial at 1, empty cache. -/
def initSys : Sys := ⟨[], 1, none⟩

/-- An HTTP response: status code and optional JSON body (`res.status(204)
.send()` sends no body). -/
structure Resp : Type where
  status : Nat
  body : Option JsonVal

/-- `initializeTaskCount` (app.js lines 37-50): if `"taskCount"` is present
in Redis return at once; otherwise `SELECT COUNT(*)` and store it as a
string. -/
def initializeTaskCount (st : Sys) : Sys :=
  match st.taskCount with
  | some _ => st
  | none => { st with taskCount := some (natStr st.tasks.length) }

/-- `POST /tasks` (app.js lines 53-86): validate the title, then build the
payload and run
`INSERT INTO tasks (data) VALUES ($datavalues::jsonb) RETURNING id`.
`$datavalues` is not a positional `pg` placeholder, so the query is sent
verbatim and PostgreSQL rejects it: the insert throws on every call, the
catch answers 500 {error: "Server error"}, and neither the table nor the
counter ever changes — the `INCR` and the `201 {id}` response (app.js
lines 76-79) are unreachable. -/
def postTasks (body : Bag) (st : Sys) : Resp × Sys :=
  if titleCheckFails (bagFind body "title") then
    (⟨400, some (.obj [("error", .str "Title is required")])⟩, st)
  else
    (⟨500, some (.obj [("error", .str "Server error")])⟩, st)

/-- `GET /tasks` (app.js lines 89-101): all rows as `{id, data}`. -/
def getTasks (st : Sys) : Resp × Sys :=
  (⟨200, some (.arr (st.tasks.map (fun r => .obj [("id", .num r.1), ("data", .obj r.2)])))⟩,
   st)

/-- `GET /tasks/:id` (app.js lines 104-122): `SELECT WHERE id`; found rows
answer `{id, data}`, else `404 {error}`. -/
def getTaskById (id : Nat) (st : Sys) : Resp × Sys :=
  match st.tasks.find? (fun r => r.1 == id) with
  | some r => (⟨200, some (.obj [("id", .num r.1), ("data", .obj r.2)])⟩, st)
  | none => (⟨404, some (.obj [("error", .str "Task not found")])⟩, st)

/-- `PUT /tasks/:id` (app.js lines 125-154): load the row with a valid
`$1` query; an absent id answers 404.  Otherwise the handler computes the
spread merge `{...existingData, ...req.body}` in memory and runs
`UPDATE tasks SET data = $datavalues::jsonb WHERE id = $1`, which mixes the
invalid `$datavalues` placeholder with `$1` (the latent defect spec §9
flags): the update throws on every call, so the merge is discarded, nothing
is persisted, and the catch answers 500 {error: "Server error"} — the
`200 {id, data: merged}` response (app.js line 141) is unreachable. -/
def putTask (id : Nat) (body : Bag) (st : Sys) : Resp × Sys :=
  match st.tasks.find? (fun r => r.1 == id) with
  | none => (⟨404, some (.obj [("error", .str "Task not found")])⟩, st)
  | some _ => (⟨500, some (.obj [("error", .str "Server error")])⟩, st)

/-- `DELETE /tasks/:id` (app.js lines 157-175): `DELETE WHERE id`; zero rows
deleted answers 404, else `DECR` the counter and answer 204.  A failing
`DECR` throws after the delete committed: catch answers 500. -/
def deleteTask (id : Nat) (st : Sys) : Resp × Sys :=
  let remaining := st.tasks.filter (fun r => !(r.1 == id))
  if st.tasks.length - remaining.length = 0 then
    (⟨404, some (.obj [("error", .str "Task not found")])⟩, st)
  else
    match redisDecrStr st.taskCount with
    | some cv => (⟨204, none⟩, ⟨remaining, st.nextId, some cv⟩)
    | none =>
        (⟨500, some (.obj [("error", .str "Server error")])⟩,
         ⟨remaining, st.nextId, st.taskCount⟩)

/-- `GET /stats` (app.js lines 178-193): `initializeTaskCount()`, read the
key, answer `{taskCount: parseInt(value, 10)}`. -/
def getStats (st : Sys) : Resp × Sys :=
  let st1 := initializeTaskCount st
  let n := match st1.taskCount with
    | some s => parseInt10 s
    | none => none
  (⟨200, some (.obj [("taskCount", jsNum n)])⟩, st1)

/-- One inbound request. -/
inductive Op : Type where
  | post (body : Bag)
  | listAll
  | getOne (id : Nat)
  | put (id : Nat) (body : Bag)
  | del (id : Nat)
  | stats

/-- Dispatch a request to its handler. -/
def execOp : Op → Sys → Resp × Sys
  | .post b, st => postTasks b st
  | .listAll, st => getTasks st
  | .getOne i, st => getTaskById i st
  | .put i b, st => putTask i b st
  | .del i, st => deleteTask i st
  | .stats, st => getStats st

/-- Run a request sequence; also count the successful creations (201
responses) and successful deletions (204 responses). -/
def runCount : List Op → Sys → Sys × Nat × Nat
  | [], st => (st, 0, 0)
  | op :: ops, st =>
      let r := execOp op st
      let rest := runCount ops r.2
      (rest.1,
       (if r.1.status = 201 then 1 else 0) + rest.2.1,
       (if r.1.status = 204 then 1 else 0) + rest.2.2)

/-! ### Invariants -/

/-- The `"taskCount"` value, when present, is the decimal string of an
integer. -/
def CacheInv (st : Sys) : Prop :=
  ∀ s, st.taskCount = some s → ∃ q : Int, s = intStr q

/-- What every state reachable from a fresh deployment looks like: the
broken INSERT means no row is ever created, so the table stays empty and
the only cache write that can happen is the reconciler's `set("0")`. -/
def FreshInv (st : Sys) : Prop :=
  st.tasks = [] ∧ (st.taskCount = none ∨ st.taskCount = some (natStr 0))


/-! ### Decimal string lemmas -/

lemma digitVal_digitChar {d : Nat} (h : d < 10) : digitVal (digitChar d) = d := by
  interval_cases d <;> rfl

lemma isDigitCh_digitChar {d : Nat} (h : d < 10) : isDigitCh (digitChar d) = true := by
  interval_cases d <;> rfl

/-- A decimal digit character is not a sign and not whitespace. -/
lemma digit_char_shape {c : Char} (h : isDigitCh c = true) :
    c ≠ '-' ∧ c ≠ '+' ∧ c.isWhitespace = false := by
  have hv : digitVal c < 10 := by simpa [isDigitCh] using h
  unfold digitVal at hv
  split at hv <;> first | exact ⟨by decide, by decide, by decide⟩ | omega

lemma natDigits_all : ∀ fuel n, (natDigits fuel n).all isDigitCh = true := by
  intro fuel
  induction fuel with
  | zero => intro n; rfl
  | succ f ih =>
      intro n
      match n with
      | 0 => rfl
      | m + 1 =>
          have hr : (m + 1) % 10 < 10 := Nat.mod_lt _ (by norm_num)
          simp only [natDigits, List.all_append, ih, List.all_cons, List.all_nil,
            isDigitCh_digitChar hr, Bool.and_self]

lemma natDigits_ne_nil {fuel n : Nat} (h0 : 0 < n) (hf : n ≤ fuel) :
    natDigits fuel n ≠ [] := by
  match fuel, n with
  | 0, n => omega
  | f + 1, 0 => omega
  | f + 1, m + 1 => simp [natDigits]

lemma valAux_natDigits :
    ∀ fuel n acc, n ≤ fuel →
      List.foldl (fun a c => a * 10 + digitVal c) acc (natDigits fuel n) =
        acc * 10 ^ (natDigits fuel n).length + n := by
  intro fuel
  induction fuel with
  | zero =>
      intro n acc h
      interval_cases n
      simp [natDigits]
  | succ f ih =>
      intro n acc h
      match n with
      | 0 => simp [natDigits]
      | m + 1 =>
          have hq : (m + 1) / 10 ≤ f := by
            have := Nat.div_lt_self (Nat.succ_pos m) (by norm_num : 1 < 10)
            omega
          have hr : (m + 1) % 10 < 10 := Nat.mod_lt _ (by norm_num)
          have hmod : 10 * ((m + 1) / 10) + (m + 1) % 10 = m + 1 :=
            Nat.div_add_mod (m + 1) 10
          simp only [natDigits, List.foldl_append, List.foldl_cons, List.foldl_nil,
            List.length_append, List.length_cons, List.length_nil]
          rw [ih _ _ hq, digitVal_digitChar hr]
          have expand :
              (acc * 10 ^ (natDigits f ((m + 1) / 10)).length + (m + 1) / 10) * 10 +
                  (m + 1) % 10 =
                acc * (10 ^ (natDigits f ((m + 1) / 10)).length * 10) +
                  (10 * ((m + 1) / 10) + (m + 1) % 10) := by ring
          rw [expand, hmod, pow_succ]

lemma valDigits_natDigits {fuel n : Nat} (h : n ≤ fuel) :
    valDigits (natDigits fuel n) = n := by
  have := valAux_natDigits fuel n 0 h
  simpa [valDigits] using this

lemma digitsVal?_natDigits {fuel n : Nat} (h0 : 0 < n) (hf : n ≤ fuel) :
    digitsVal? (natDigits fuel n) = some n := by
  unfold digitsVal?
  rw [if_neg (natDigits_ne_nil h0 hf), if_pos (natDigits_all fuel n),
    valDigits_natDigits hf]

lemma natStr_pos {n : Nat} (h : 0 < n) : natStr n = ⟨natDigits n n⟩ := by
  unfold natStr
  rw [if_neg (by omega)]

lemma parseRedisInt_natStr (n : Nat) : parseRedisInt (natStr n) = some (n : Int) := by
  match n with
  | 0 => decide
  | m + 1 =>
      rw [natStr_pos (Nat.succ_pos m)]
      obtain ⟨c, rest, hcr⟩ :=
        List.exists_cons_of_ne_nil (natDigits_ne_nil (Nat.succ_pos m) le_rfl)
      have hdig : isDigitCh c = true := by
        have := natDigits_all (m + 1) (m + 1)
        rw [hcr, List.all_cons] at this
        exact (Bool.and_eq_true _ _ |>.mp this).1
      show parseRedisIntAux (natDigits (m + 1) (m + 1)) = some ((m + 1 : Nat) : Int)
      rw [hcr]
      simp only [parseRedisIntAux]
      rw [if_neg (digit_char_shape hdig).1]
      rw [← hcr, digitsVal?_natDigits (Nat.succ_pos m) le_rfl]
      rfl

lemma parseRedisInt_intStr (i : Int) : parseRedisInt (intStr i) = some i := by
  by_cases hi : i < 0
  · have ha : 0 < i.natAbs := by omega
    unfold intStr
    rw [if_pos hi, natStr_pos ha]
    show parseRedisIntAux ('-' :: natDigits i.natAbs i.natAbs) = some i
    simp only [parseRedisIntAux, if_true]
    rw [digitsVal?_natDigits ha le_rfl]
    show some (-(i.natAbs : Int)) = some i
    congr 1
    omega
  · unfold intStr
    rw [if_neg hi, parseRedisInt_natStr]
    congr 1
    omega

lemma intStr_natCast (c : Nat) : intStr (c : Int) = natStr c := by
  unfold intStr
  rw [if_neg (by omega), Int.toNat_natCast]

/-- `INCR`/`DECR` on a well-formed integer string succeed and keep the
format; the POST that would issue `INCR` never reaches it, but the lemma
documents the adapter's behavior alongside `DECR`'s. -/
lemma redisIncr_intStr (q : Int) :
    redisIncrStr (some (intStr q)) = some (intStr (q + 1)) := by
  simp only [redisIncrStr]
  rw [parseRedisInt_intStr]
  rfl

lemma redisDecr_intStr (q : Int) :
    redisDecrStr (some (intStr q)) = some (intStr (q - 1)) := by
  simp only [redisDecrStr]
  rw [parseRedisInt_intStr]
  rfl


/-! ### parseInt lemmas -/

lemma takeWhile_digits {l : List Char} (h : l.all isDigitCh = true) :
    l.takeWhile isDigitCh = l :=
  List.takeWhile_eq_self_iff.mpr (by simpa [List.all_eq_true] using h)

lemma dropWhile_ws_of_digit {c : Char} {rest : List Char} (h : isDigitCh c = true) :
    (c :: rest).dropWhile (fun x => x.isWhitespace) = c :: rest := by
  rw [List.dropWhile_cons, if_neg]
  simp [(digit_char_shape h).2.2]

lemma stripSign_fst_digit {c : Char} {rest : List Char} (h : isDigitCh c = true) :
    (stripSign (c :: rest)).1 = false := by
  simp only [stripSign]
  rw [if_neg (digit_char_shape h).1, if_neg (digit_char_shape h).2.1]

lemma stripSign_snd_digit {c : Char} {rest : List Char} (h : isDigitCh c = true) :
    (stripSign (c :: rest)).2 = c :: rest := by
  simp only [stripSign]
  rw [if_neg (digit_char_shape h).1, if_neg (digit_char_shape h).2.1]

lemma stripSign_fst_dash (l : List Char) : (stripSign ('-' :: l)).1 = true := by
  simp [stripSign]

lemma stripSign_snd_dash (l : List Char) : (stripSign ('-' :: l)).2 = l := by
  simp [stripSign]

lemma parseInt10_digits {l : List Char} (hne : l ≠ []) (hall : l.all isDigitCh = true) :
    parseInt10 ⟨l⟩ = some ((valDigits l : Nat) : Int) := by
  obtain ⟨c, rest, rfl⟩ := List.exists_cons_of_ne_nil hne
  have hc : isDigitCh c = true := by
    rw [List.all_cons] at hall
    exact (Bool.and_eq_true _ _ |>.mp hall).1
  simp only [parseInt10]
  rw [dropWhile_ws_of_digit hc, stripSign_snd_digit hc, stripSign_fst_digit hc,
    takeWhile_digits hall]
  simp

lemma parseInt10_natStr (n : Nat) : parseInt10 (natStr n) = some (n : Int) := by
  match n with
  | 0 => decide
  | m + 1 =>
      rw [natStr_pos (Nat.succ_pos m),
        parseInt10_digits (natDigits_ne_nil (Nat.succ_pos m) le_rfl) (natDigits_all _ _),
        valDigits_natDigits le_rfl]

lemma parseInt10_intStr (i : Int) : parseInt10 (intStr i) = some i := by
  by_cases hi : i < 0
  · have ha : 0 < i.natAbs := by omega
    unfold intStr
    rw [if_pos hi, natStr_pos ha]
    show parseInt10 ⟨'-' :: natDigits i.natAbs i.natAbs⟩ = some i
    simp only [parseInt10]
    have hw : ¬('-'.isWhitespace = true) := by decide
    rw [List.dropWhile_cons, if_neg hw, stripSign_snd_dash, stripSign_fst_dash,
      takeWhile_digits (natDigits_all _ _)]
    rw [if_neg (by simp [List.isEmpty_iff, natDigits_ne_nil ha le_rfl])]
    rw [if_pos rfl, valDigits_natDigits le_rfl]
    congr 1
    omega
  · unfold intStr
    rw [if_neg hi, parseInt10_natStr]
    congr 1
    omega

/-! ### Attribute bag lemmas -/

lemma bagFind_append (l1 l2 : Bag) (k : String) :
    bagFind (l1 ++ l2) k = (bagFind l1 k).or (bagFind l2 k) := by
  unfold bagFind
  rw [List.find?_append]
  cases l1.find? (fun p => p.1 == k) <;> simp

lemma find?_map_keyed (a : Bag) (g : String × JsonVal → JsonVal) (k : String) :
    (a.map (fun p => (p.1, g p))).find? (fun p => p.1 == k) =
      (a.find? (fun p => p.1 == k)).map (fun p => (p.1, g p)) := by
  induction a with
  | nil => rfl
  | cons p a ih =>
      by_cases h : (p.1 == k) = true
      · simp [List.find?_cons, h]
      · rw [Bool.not_eq_true] at h
        simp [List.find?_cons, h, ih]

lemma find?_filter_keyed (b : Bag) (h : String → Bool) (k : String) :
    (b.filter (fun p => h p.1)).find? (fun p => p.1 == k) =
      if h k then b.find? (fun p => p.1 == k) else none := by
  induction b with
  | nil => simp
  | cons p b ih =>
      by_cases hpk : p.1 = k
      · subst hpk
        by_cases hk : h p.1
        · simp [List.filter_cons, hk, List.find?_cons]
        · rw [Bool.not_eq_true] at hk
          simp [List.filter_cons, hk, ih]
      · have hbeq : (p.1 == k) = false := by simpa using hpk
        by_cases hk : h p.1
        · simp [List.filter_cons, hk, List.find?_cons, hbeq, ih]
        · rw [Bool.not_eq_true] at hk
          simp [List.filter_cons, hk, List.find?_cons, hbeq, ih]

lemma bagFind_map_keyed (a : Bag) (g : String × JsonVal → JsonVal) (k : String) :
    bagFind (a.map (fun p => (p.1, g p))) k =
      (a.find? (fun p => p.1 == k)).map g := by
  unfold bagFind
  rw [find?_map_keyed]
  cases a.find? (fun p => p.1 == k) <;> rfl

lemma bagFind_filter_keyed (b : Bag) (h : String → Bool) (k : String) :
    bagFind (b.filter (fun p => h p.1)) k =
      if h k then bagFind b k else none := by
  unfold bagFind
  rw [find?_filter_keyed]
  by_cases hk : h k = true
  · rw [if_pos hk, if_pos hk]
  · rw [if_neg hk, if_neg hk]
    rfl

/-- A key the request body carries ends up in the merge with the body's
value (body keys win). -/
lemma bagFind_spread_right {a b : Bag} {k : String} {v : JsonVal}
    (h : bagFind b k = some v) : bagFind (spread a b) k = some v := by
  unfold spread
  rw [bagFind_append,
    bagFind_map_keyed a (fun p => (bagFind b p.1).getD p.2) k,
    bagFind_filter_keyed b (fun s => (bagFind a s).isNone) k]
  cases ha : a.find? (fun q => q.1 == k) with
  | some p =>
      have hp1 : p.1 = k := by simpa using List.find?_some ha
      simp [hp1, h]
  | none =>
      have ha2 : bagFind a k = none := by
        unfold bagFind
        rw [ha]
        rfl
      simp [ha2, h]

/-- A key the request body omits keeps its stored value in the merge. -/
lemma bagFind_spread_left {a b : Bag} {k : String}
    (h : bagFind b k = none) : bagFind (spread a b) k = bagFind a k := by
  unfold spread
  rw [bagFind_append,
    bagFind_map_keyed a (fun p => (bagFind b p.1).getD p.2) k,
    bagFind_filter_keyed b (fun s => (bagFind a s).isNone) k]
  cases ha : a.find? (fun q => q.1 == k) with
  | some p =>
      have hp1 : p.1 = k := by simpa using List.find?_some ha
      have ha2 : bagFind a k = some p.2 := by
        unfold bagFind
        rw [ha]
        rfl
      simp [hp1, h, ha2]
  | none =>
      have ha2 : bagFind a k = none := by
        unfold bagFind
        rw [ha]
        rfl
      simp [ha2, h]

/-- Spreading the empty body over a bag is the identity. -/
lemma spread_nil (a : Bag) : spread a [] = a := by
  unfold spread
  simp only [List.filter_nil, List.append_nil]
  have hp : ∀ p : String × JsonVal, (p.1, (bagFind [] p.1).getD p.2) = p := by
    intro p
    simp [bagFind]
  rw [List.map_congr_left (fun p _ => hp p)]
  simp


/-! ### Row list lemmas -/

lemma filter_ne_eq_self {l : List (Nat × Bag)} {id : Nat}
    (h : ∀ r ∈ l, r.1 ≠ id) : l.filter (fun r => !(r.1 == id)) = l :=
  List.filter_eq_self.mpr (by intro a ha; simpa using h a ha)

/-! ### Handler equation lemmas -/

lemma postTasks_invalid {b : Bag} {st : Sys}
    (h : titleCheckFails (bagFind b "title") = true) :
    postTasks b st = (⟨400, some (.obj [("error", .str "Title is required")])⟩, st) := by
  unfold postTasks
  rw [if_pos h]

lemma postTasks_error {b : Bag} {st : Sys}
    (hv : titleCheckFails (bagFind b "title") = false) :
    postTasks b st = (⟨500, some (.obj [("error", .str "Server error")])⟩, st) := by
  unfold postTasks
  rw [if_neg (by simp [hv])]

lemma deleteTask_notfound {id : Nat} {st : Sys}
    (h : ∀ r ∈ st.tasks, r.1 ≠ id) :
    deleteTask id st = (⟨404, some (.obj [("error", .str "Task not found")])⟩, st) := by
  unfold deleteTask
  rw [filter_ne_eq_self h, if_pos (by omega)]

lemma putTask_notfound {id : Nat} {b : Bag} {st : Sys}
    (hf : st.tasks.find? (fun q => q.1 == id) = none) :
    putTask id b st = (⟨404, some (.obj [("error", .str "Task not found")])⟩, st) := by
  unfold putTask
  rw [hf]

lemma putTask_error {id : Nat} {b : Bag} {st : Sys} {r : Nat × Bag}
    (hf : st.tasks.find? (fun q => q.1 == id) = some r) :
    putTask id b st = (⟨500, some (.obj [("error", .str "Server error")])⟩, st) := by
  unfold putTask
  rw [hf]

lemma deleteTask_zero {i : Nat} {st : Sys}
    (h0 : st.tasks.length - (st.tasks.filter (fun r => !(r.1 == i))).length = 0) :
    deleteTask i st = (⟨404, some (.obj [("error", .str "Task not found")])⟩, st) := by
  unfold deleteTask
  rw [if_pos h0]

lemma deleteTask_nonzero {i : Nat} {st : Sys} {cv : String}
    (h0 : ¬(st.tasks.length - (st.tasks.filter (fun r => !(r.1 == i))).length = 0))
    (hc : redisDecrStr st.taskCount = some cv) :
    deleteTask i st =
      (⟨204, none⟩, ⟨st.tasks.filter (fun r => !(r.1 == i)), st.nextId, some cv⟩) := by
  unfold deleteTask
  rw [if_neg h0, hc]

lemma getTaskById_notfound {id : Nat} {st : Sys}
    (hf : st.tasks.find? (fun r => r.1 == id) = none) :
    getTaskById id st = (⟨404, some (.obj [("error", .str "Task not found")])⟩, st) := by
  unfold getTaskById
  rw [hf]

lemma getTaskById_found {id : Nat} {st : Sys} {r : Nat × Bag}
    (hf : st.tasks.find? (fun q => q.1 == id) = some r) :
    getTaskById id st =
      (⟨200, some (.obj [("id", .num r.1), ("data", .obj r.2)])⟩, st) := by
  unfold getTaskById
  rw [hf]

lemma initializeTaskCount_some {st : Sys} {s : String} (h : st.taskCount = some s) :
    initializeTaskCount st = st := by
  unfold initializeTaskCount
  rw [h]

lemma initializeTaskCount_none {st : Sys} (h : st.taskCount = none) :
    initializeTaskCount st = { st with taskCount := some (natStr st.tasks.length) } := by
  unfold initializeTaskCount
  rw [h]

lemma getStats_some {st : Sys} {s : String} (h : st.taskCount = some s) :
    getStats st = (⟨200, some (.obj [("taskCount", jsNum (parseInt10 s))])⟩, st) := by
  simp only [getStats]
  rw [initializeTaskCount_some h, h]

lemma getStats_none {st : Sys} (h : st.taskCount = none) :
    getStats st =
      (⟨200, some (.obj [("taskCount", jsNum (parseInt10 (natStr st.tasks.length)))])⟩,
       { st with taskCount := some (natStr st.tasks.length) }) := by
  simp only [getStats]
  rw [initializeTaskCount_none h]


/-! ### The fresh-deployment dynamics -/

/-- Every request preserves `FreshInv`, and no request from such a state
ever answers 201 or 204: creates always fail at the broken INSERT, and
with the table empty nothing exists to delete. -/
lemma execOp_fresh (op : Op) {st : Sys} (h : FreshInv st) :
    FreshInv (execOp op st).2 ∧
    (execOp op st).1.status ≠ 201 ∧ (execOp op st).1.status ≠ 204 := by
  obtain ⟨he, hc⟩ := h
  cases op with
  | post b =>
      simp only [execOp]
      by_cases hv : titleCheckFails (bagFind b "title") = true
      · simp only [postTasks_invalid hv]
        exact ⟨⟨he, hc⟩, by decide, by decide⟩
      · simp only [postTasks_error (by simpa using hv)]
        exact ⟨⟨he, hc⟩, by decide, by decide⟩
  | listAll =>
      simp only [execOp, getTasks]
      exact ⟨⟨he, hc⟩, by decide, by decide⟩
  | getOne i =>
      simp only [execOp]
      have hf : st.tasks.find? (fun r => r.1 == i) = none := by
        rw [he]
        rfl
      simp only [getTaskById_notfound hf]
      exact ⟨⟨he, hc⟩, by decide, by decide⟩
  | put i b =>
      simp only [execOp]
      have hf : st.tasks.find? (fun r => r.1 == i) = none := by
        rw [he]
        rfl
      simp only [putTask_notfound hf]
      exact ⟨⟨he, hc⟩, by decide, by decide⟩
  | del i =>
      simp only [execOp]
      have h0 : st.tasks.length -
          (st.tasks.filter (fun r => !(r.1 == i))).length = 0 := by
        rw [he]
        rfl
      simp only [deleteTask_zero h0]
      exact ⟨⟨he, hc⟩, by decide, by decide⟩
  | stats =>
      simp only [execOp]
      rcases hc with hc | hc
      · simp only [getStats_none hc]
        refine ⟨⟨he, Or.inr ?_⟩, by decide, by decide⟩
        rw [he]
        rfl
      · simp only [getStats_some hc]
        exact ⟨⟨he, Or.inr hc⟩, by decide, by decide⟩

/-- Along any request trace from a `FreshInv` state, the 201 and 204
counters both stay zero. -/
lemma runCount_fresh :
    ∀ (tr : List Op) {st : Sys}, FreshInv st →
      FreshInv (runCount tr st).1 ∧
      (runCount tr st).2.1 = 0 ∧ (runCount tr st).2.2 = 0 := by
  intro tr
  induction tr with
  | nil =>
      intro st h
      exact ⟨h, rfl, rfl⟩
  | cons op tr ih =>
      intro st h
      obtain ⟨hstep, h201, h204⟩ := execOp_fresh op h
      obtain ⟨hfin, hn, hm⟩ := ih hstep
      simp only [runCount]
      refine ⟨hfin, ?_, ?_⟩
      · rw [if_neg h201, hn]
      · rw [if_neg h204, hm]

/-- On a `FreshInv` state, GET /stats answers taskCount 0. -/
lemma getStats_fresh {st : Sys} (h : FreshInv st) :
    (getStats st).1 = ⟨200, some (.obj [("taskCount", .num 0)])⟩ := by
  obtain ⟨he, hc⟩ := h
  rcases hc with hc | hc
  · rw [getStats_none hc]
    show (⟨200, some (.obj [("taskCount",
        jsNum (parseInt10 (natStr st.tasks.length)))])⟩ : Resp) = _
    rw [he, show natStr ([] : List (Nat × Bag)).length = natStr 0 from rfl,
      parseInt10_natStr]
    rfl
  · rw [getStats_some hc]
    show (⟨200, some (.obj [("taskCount",
        jsNum (parseInt10 (natStr 0)))])⟩ : Resp) = _
    rw [parseInt10_natStr]
    rfl

/-! ### Cache well-formedness -/


lemma redisDecr_defined {o : Option String}
    (h : ∀ s, o = some s → ∃ q : Int, s = intStr q) :
    ∃ q : Int, redisDecrStr o = some (intStr q) := by
  cases o with
  | none => exact ⟨-1, rfl⟩
  | some s =>
      obtain ⟨q, rfl⟩ := h s rfl
      exact ⟨q - 1, redisDecr_intStr q⟩

/-- Every request keeps the `"taskCount"` value a decimal integer string. -/
lemma cacheInv_execOp {st : Sys} (h : CacheInv st) (op : Op) :
    CacheInv (execOp op st).2 := by
  cases op with
  | post b =>
      simp only [execOp]
      by_cases hv : titleCheckFails (bagFind b "title") = true
      · simp only [postTasks_invalid hv]
        exact h
      · simp only [postTasks_error (by simpa using hv)]
        exact h
  | listAll =>
      simp only [execOp, getTasks]
      exact h
  | getOne i =>
      simp only [execOp]
      cases hf : st.tasks.find? (fun r => r.1 == i) with
      | none =>
          simp only [getTaskById_notfound hf]
          exact h
      | some r =>
          simp only [getTaskById_found hf]
          exact h
  | put i b =>
      simp only [execOp]
      cases hf : st.tasks.find? (fun r => r.1 == i) with
      | none =>
          simp only [putTask_notfound hf]
          exact h
      | some r =>
          simp only [putTask_error hf]
          exact h
  | del i =>
      simp only [execOp]
      by_cases h0 : st.tasks.length - (st.tasks.filter (fun r => !(r.1 == i))).length = 0
      · simp only [deleteTask_zero h0]
        exact h
      · obtain ⟨q, hq⟩ := redisDecr_defined h
        simp only [deleteTask_nonzero h0 hq]
        intro s hs
        simp at hs
        exact ⟨q, hs.symm⟩
  | stats =>
      simp only [execOp]
      cases hoc : st.taskCount with
      | some s =>
          simp only [getStats_some hoc]
          exact h
      | none =>
          simp only [getStats_none hoc]
          intro s hs
          simp at hs
          exact ⟨(st.tasks.length : Int), by rw [← hs, intStr_natCast]⟩

/-- Under the cache invariant, `GET /stats` answers an integer count. -/
lemma getStats_cacheNum {st : Sys} (h : CacheInv st) :
    ∃ q : Int, (getStats st).1 =
      ⟨200, some (.obj [("taskCount", .num q)])⟩ := by
  cases hoc : st.taskCount with
  | some s =>
      obtain ⟨q, rfl⟩ := h s hoc
      refine ⟨q, ?_⟩
      rw [getStats_some hoc]
      show (⟨200, some (.obj [("taskCount", jsNum (parseInt10 (intStr q)))])⟩ : Resp) = _
      rw [parseInt10_intStr]
      rfl
  | none =>
      refine ⟨(st.tasks.length : Int), ?_⟩
      rw [getStats_none hoc]
      show (⟨200, some (.obj [("taskCount", jsNum (parseInt10 (natStr st.tasks.length)))])⟩ : Resp) = _
      rw [parseInt10_natStr]
      rfl


/-! ### Defaulting lemmas -/

lemma nullishD_some {v : JsonVal} (d : JsonVal) (h : v ≠ .null) :
    nullishD (some v) d = v := by
  cases v
  · exact absurd rfl h
  all_goals rfl

lemma payload_title (b : Bag) :
    bagFind (payloadOf b) "title" = some ((bagFind b "title").getD .null) := rfl

lemma payload_descr (b : Bag) :
    bagFind (payloadOf b) "description" =
      some (nullishD (bagFind b "description") .null) := rfl

lemma payload_status (b : Bag) :
    bagFind (payloadOf b) "status" =
      some (nullishD (bagFind b "status") (.str "pending")) := rfl

/-! ### The claims -/

/-- Claim C1 (code bug): the claimed counter dynamics never run on this
code.  The INSERT's invalid `$datavalues` placeholder makes every create
throw (500), so from a fresh deployment every request trace has zero
successful creations (201) and zero successful deletions (204) — no row
ever exists to delete — and GET /stats answers taskCount 0 = N − M only in
that degenerate form.  The spec's intended dynamics (counter kept in
lockstep with creates and deletes) require the insert the code fails to
perform. -/
theorem claim_C1 (tr : List Op) :
    (runCount tr initSys).2.1 = 0 ∧ (runCount tr initSys).2.2 = 0 ∧
    (getStats (runCount tr initSys).1).1 =
      ⟨200, some (.obj [("taskCount", .num 0)])⟩ := by
  have hinit : FreshInv initSys := ⟨rfl, Or.inl rfl⟩
  obtain ⟨hfin, hn, hm⟩ := runCount_fresh tr hinit
  exact ⟨hn, hm, getStats_fresh hfin⟩

/-- Claim C2 (code bug): a POST with a valid title never inserts, never
increments and never answers 201: the INSERT always throws, the catch
answers 500 {error: "Server error"}, and the state — rows and counter —
is returned unchanged.  The claim describes the spec-intended create
(§4.4: insert, then increment, then 201 {id}), which the code's
placeholder slip prevents. -/
theorem claim_C2 (b : Bag) (st : Sys)
    (hv : titleCheckFails (bagFind b "title") = false) :
    postTasks b st =
      (⟨500, some (.obj [("error", .str "Server error")])⟩, st) :=
  postTasks_error hv

theorem claim_C2_witness :
    postTasks [("title", JsonVal.str "Buy milk")] initSys =
      (⟨500, some (.obj [("error", JsonVal.str "Server error")])⟩, initSys) :=
  claim_C2 [("title", JsonVal.str "Buy milk")] initSys rfl

/-- Claim C3 (code bug): a PUT on an existing id never persists and never
answers 200: the UPDATE mixes the invalid `$datavalues` placeholder with
`$1` and always throws, so the handler answers 500 with the state
unchanged.  The shallow merge the handler computes in memory before the
throw does satisfy the claim's merge semantics — body keys win wholesale,
omitted keys keep their stored values — but it is discarded, never
persisted, never returned. -/
theorem claim_C3 (i : Nat) (b : Bag) (st : Sys) (r : Nat × Bag)
    (hf : st.tasks.find? (fun q => q.1 == i) = some r) :
    putTask i b st =
      (⟨500, some (.obj [("error", .str "Server error")])⟩, st) ∧
    (∀ k v, bagFind b k = some v → bagFind (spread r.2 b) k = some v) ∧
    (∀ k, bagFind b k = none → bagFind (spread r.2 b) k = bagFind r.2 k) :=
  ⟨putTask_error hf,
   fun _ _ hk => bagFind_spread_right hk,
   fun _ hk => bagFind_spread_left hk⟩

theorem claim_C3_witness :
    putTask 1 [("status", JsonVal.str "done")]
        ⟨[(1, [("title", JsonVal.str "x"), ("description", JsonVal.str "y"),
               ("status", JsonVal.str "pending")])], 2, some "1"⟩ =
      (⟨500, some (.obj [("error", JsonVal.str "Server error")])⟩,
       ⟨[(1, [("title", JsonVal.str "x"), ("description", JsonVal.str "y"),
              ("status", JsonVal.str "pending")])], 2, some "1"⟩) ∧
    bagFind (spread
        [("title", JsonVal.str "x"), ("description", JsonVal.str "y"),
         ("status", JsonVal.str "pending")]
        [("status", JsonVal.str "done")]) "status" = some (JsonVal.str "done") := by
  have h := claim_C3 1 [("status", JsonVal.str "done")]
      ⟨[(1, [("title", JsonVal.str "x"), ("description", JsonVal.str "y"),
             ("status", JsonVal.str "pending")])], 2, some "1"⟩
      (1, [("title", JsonVal.str "x"), ("description", JsonVal.str "y"),
           ("status", JsonVal.str "pending")]) rfl
  exact ⟨h.1, h.2.1 "status" (JsonVal.str "done") rfl⟩

/-- Claim C4: initializeTaskCount trusts any present value — including the
literal string "0" — and returns without writing; only an absent key makes
it count the durable rows and write the count back, so after eviction a
GET /stats over 3 durable rows answers taskCount 3 and leaves the key
holding "3". -/
theorem claim_C4 (st : Sys) :
    (∀ s, st.taskCount = some s → initializeTaskCount st = st) ∧
    (st.taskCount = none →
      initializeTaskCount st =
        { st with taskCount := some (natStr st.tasks.length) }) ∧
    (st.taskCount = none → st.tasks.length = 3 →
      getStats st = (⟨200, some (.obj [("taskCount", .num 3)])⟩,
        { st with taskCount := some "3" })) := by
  refine ⟨fun _ hs => initializeTaskCount_some hs,
    fun h => initializeTaskCount_none h, ?_⟩
  intro h h3
  rw [getStats_none h, h3]
  rw [show natStr 3 = "3" from rfl, show parseInt10 "3" = some 3 from rfl]
  rfl

theorem claim_C4_witness :
    initializeTaskCount ⟨[], 1, some "0"⟩ = ⟨[], 1, some "0"⟩ ∧
    getStats ⟨[(1, []), (2, []), (3, [])], 4, none⟩ =
      (⟨200, some (.obj [("taskCount", .num 3)])⟩,
       ⟨[(1, []), (2, []), (3, [])], 4, some "3"⟩) :=
  ⟨(claim_C4 ⟨[], 1, some "0"⟩).1 "0" rfl,
   (claim_C4 ⟨[(1, []), (2, []), (3, [])], 4, none⟩).2.2 rfl rfl⟩

/-- Claim C5: a POST whose title fails validation (missing key, non-string,
falsy value, or blank after trimming) answers 400 with "Title is required"
and leaves the whole state — rows and counter — untouched. -/
theorem claim_C5 (b : Bag) (st : Sys)
    (h : titleCheckFails (bagFind b "title") = true) :
    postTasks b st =
      (⟨400, some (.obj [("error", .str "Title is required")])⟩, st) :=
  postTasks_invalid h

theorem claim_C5_witness :
    postTasks [("title", JsonVal.str "   ")] initSys =
      (⟨400, some (.obj [("error", JsonVal.str "Title is required")])⟩, initSys) :=
  claim_C5 [("title", JsonVal.str "   ")] initSys rfl

/-- Claim C6 (code bug): the create-then-read round trip never starts on
this code: POST answers 400 on an invalid title and 500 otherwise (the
INSERT always throws), never 201, with the state unchanged either way —
there is no "returned id" to fetch.  The claim describes the
spec-intended create (§8's round-trip property). -/
theorem claim_C6 (b : Bag) (st : Sys) :
    ((postTasks b st).1.status = 400 ∨ (postTasks b st).1.status = 500) ∧
    (postTasks b st).2 = st ∧ (postTasks b st).1.status ≠ 201 := by
  by_cases hv : titleCheckFails (bagFind b "title") = true
  · simp [postTasks_invalid hv]
  · simp [postTasks_error (by simpa using hv)]

/-- Claim C7: DELETE on an id with no matching row answers 404 "Task not
found" and changes nothing: no row removed, no counter decrement. -/
theorem claim_C7 (i : Nat) (st : Sys) (h : ∀ r ∈ st.tasks, r.1 ≠ i) :
    deleteTask i st =
      (⟨404, some (.obj [("error", .str "Task not found")])⟩, st) :=
  deleteTask_notfound h

theorem claim_C7_witness :
    deleteTask 5 ⟨[(1, [("title", JsonVal.str "a")])], 2, some "1"⟩ =
      (⟨404, some (.obj [("error", JsonVal.str "Task not found")])⟩,
       ⟨[(1, [("title", JsonVal.str "a")])], 2, some "1"⟩) :=
  claim_C7 5 ⟨[(1, [("title", JsonVal.str "a")])], 2, some "1"⟩ (by decide)

/-- Claim C8 (code bug): after PUT {} on an existing task the stored data
is indeed unchanged — but only because the UPDATE always throws: the
handler answers 500, not the claimed no-op write with a 200 echo.  The
merge it computes and discards, spread bag {}, is the identity the claim
cites. -/
theorem claim_C8 (i : Nat) (st : Sys) (r : Nat × Bag)
    (hf : st.tasks.find? (fun q => q.1 == i) = some r) :
    putTask i [] st =
      (⟨500, some (.obj [("error", .str "Server error")])⟩, st) ∧
    spread r.2 [] = r.2 :=
  ⟨putTask_error hf, spread_nil r.2⟩

theorem claim_C8_witness :
    putTask 1 [] ⟨[(1, [("title", JsonVal.str "x")])], 2, some "1"⟩ =
      (⟨500, some (.obj [("error", JsonVal.str "Server error")])⟩,
       ⟨[(1, [("title", JsonVal.str "x")])], 2, some "1"⟩) ∧
    spread [("title", JsonVal.str "x")] [] = [("title", JsonVal.str "x")] :=
  claim_C8 1 ⟨[(1, [("title", JsonVal.str "x")])], 2, some "1"⟩
    (1, [("title", JsonVal.str "x")]) rfl

/-- Claim C9: whenever the "taskCount" value is present it is the decimal
string of an integer, every request preserves that invariant, and under it
GET /stats — which parses the value with parseInt — answers an integer
taskCount. -/
theorem claim_C9 (st : Sys) (h : CacheInv st) :
    (∀ op, CacheInv (execOp op st).2) ∧
    ∃ q : Int, (getStats st).1 = ⟨200, some (.obj [("taskCount", .num q)])⟩ :=
  ⟨fun op => cacheInv_execOp h op, getStats_cacheNum h⟩

theorem claim_C9_witness :
    CacheInv (execOp Op.stats initSys).2 ∧
    ∃ q : Int, (getStats initSys).1 =
      ⟨200, some (.obj [("taskCount", JsonVal.num q)])⟩ :=
  ⟨(claim_C9 initSys (fun _ hs => nomatch hs)).1 Op.stats,
   (claim_C9 initSys (fun _ hs => nomatch hs)).2⟩

/-- Claim C10 (code bug): the payload POST builds carries exactly the keys
title, description and status — every other body key is discarded before
the query — but the bag is never persisted: the INSERT always throws, so
the store is unchanged by every valid POST and no stored task ever comes
from this path. -/
theorem claim_C10 (b : Bag) (st : Sys)
    (hv : titleCheckFails (bagFind b "title") = false) :
    (postTasks b st).2.tasks = st.tasks ∧
    (bagFind (payloadOf b) "title").isSome = true ∧
    (bagFind (payloadOf b) "description").isSome = true ∧
    (bagFind (payloadOf b) "status").isSome = true ∧
    (∀ k, k ≠ "title" → k ≠ "description" → k ≠ "status" →
      bagFind (payloadOf b) k = none) := by
  refine ⟨by rw [postTasks_error hv], rfl, rfl, rfl, ?_⟩
  intro k h1 h2 h3
  have e1 : ("title" == k) = false := by
    simpa using Ne.symm h1
  have e2 : ("description" == k) = false := by
    simpa using Ne.symm h2
  have e3 : ("status" == k) = false := by
    simpa using Ne.symm h3
  unfold bagFind payloadOf
  simp [List.find?_cons, e1, e2, e3]

theorem claim_C10_witness :
    (postTasks [("title", JsonVal.str "t"), ("junk", JsonVal.num 7)] initSys).2.tasks =
      [] ∧
    bagFind (payloadOf [("title", JsonVal.str "t"), ("junk", JsonVal.num 7)]) "junk" =
      none := by
  have h := claim_C10 [("title", JsonVal.str "t"), ("junk", JsonVal.num 7)] initSys rfl
  exact ⟨h.1, h.2.2.2.2 "junk" (by decide) (by decide) (by decide)⟩

end CloudAss2
